import Mathlib

/-!
Shallow embedding of the hitchcock binding layer (GLFW / OpenGL / Dear ImGui /
stb_image Rust bindings).  Foreign calls are modelled by oracles (functions
supplying the foreign library's answers) together with explicit traces of the
calls a wrapper emits; text arguments are modelled as their byte sequences.
-/

namespace Hitchcock

/-- Byte strings: a Rust `&str`/`CStr` payload as its list of bytes. -/
abbrev Bytes := List Nat

/-- Model of `std::ffi::CString::new`: fails with the position of the first
interior NUL byte (the `NulError` position) when the input contains a 0 byte,
otherwise returns the bytes unchanged. -/
def cstringNew (s : Bytes) : Except Nat Bytes :=
  if s.contains 0 then .error (s.findIdx (· == 0)) else .ok s

/-- Whether a byte is a UTF-8 continuation byte (`0x80..=0xBF`). -/
def isUtf8Cont (b : Nat) : Bool := 0x80 ≤ b && b ≤ 0xBF

/-- One step of the strict UTF-8 acceptor used by Rust's `str::from_utf8`
(`CStr::to_str`).  State 0 is the start state; states 1-3 expect that many
unconstrained continuation bytes; states 4-7 encode the restricted second-byte
ranges after `0xE0`, `0xED`, `0xF0` and `0xF4` respectively. -/
def utf8Step (st b : Nat) : Option Nat :=
  match st with
  | 0 =>
    if b ≤ 0x7F then some 0
    else if 0xC2 ≤ b && b ≤ 0xDF then some 1
    else if b == 0xE0 then some 4
    else if b == 0xED then some 5
    else if (0xE1 ≤ b && b ≤ 0xEC) || b == 0xEE || b == 0xEF then some 2
    else if b == 0xF0 then some 6
    else if 0xF1 ≤ b && b ≤ 0xF3 then some 3
    else if b == 0xF4 then some 7
    else none
  | 1 => if isUtf8Cont b then some 0 else none
  | 2 => if isUtf8Cont b then some 1 else none
  | 3 => if isUtf8Cont b then some 2 else none
  | 4 => if 0xA0 ≤ b && b ≤ 0xBF then some 1 else none
  | 5 => if 0x80 ≤ b && b ≤ 0x9F then some 1 else none
  | 6 => if 0x90 ≤ b && b ≤ 0xBF then some 2 else none
  | 7 => if 0x80 ≤ b && b ≤ 0x8F then some 2 else none
  | _ => none

/-- Strict UTF-8 validity of a byte sequence, as checked by `CStr::to_str` /
`OsStr::to_str` in the sources. -/
def utf8Valid (bs : Bytes) : Bool :=
  match bs.foldl (fun st b => st.bind (fun s => utf8Step s b)) (some 0) with
  | some 0 => true
  | _ => false

/-- Model of `CStr::from_ptr`: the bytes of a NUL-terminated foreign buffer up
to (excluding) the first NUL terminator. -/
def cstrFromPtr (buf : Bytes) : Bytes := buf.takeWhile (· != 0)

/-- Wrap an integer into the `i32` range, as Rust release-mode arithmetic and
`as`-casts to `i32` do. -/
def wrapI32 (x : Int) : Int := (x + 2 ^ 31) % 2 ^ 32 - 2 ^ 31

/-- Rust `as usize` cast of an `i32` value (sign extension reinterpreted as a
64-bit unsigned value). -/
def usizeOfI32 (x : Int) : Nat := (x % 2 ^ 64).toNat

/-- Outcome of a foreign-initiated call-in: either the trampoline panics with
the given message, or it dispatches exactly once with the decoded payload. -/
inductive CallinResult (α : Type) where
  | panics (msg : String)
  | dispatched (a : α)
  deriving DecidableEq

end Hitchcock

namespace Hitchcock.Gl

/-- Model of `gl::DebugSource` as generated by `define_enum` in `macros.rs`. -/
inductive DebugSource where
  | Api
  | WindowSystem
  | ShaderCompiler
  | ThirdParty
  | Application
  | Other
  | Unknown (v : Nat)
  deriving DecidableEq

/-- Model of `From<u32> for DebugSource` generated by `define_enum`. -/
def DebugSource.fromCode (v : Nat) : DebugSource :=
  if v = 0x8246 then .Api
  else if v = 0x8247 then .WindowSystem
  else if v = 0x8248 then .ShaderCompiler
  else if v = 0x8249 then .ThirdParty
  else if v = 0x824a then .Application
  else if v = 0x824b then .Other
  else .Unknown v

/-- Model of `From<DebugSource> for u32` generated by `define_enum`. -/
def DebugSource.toCode : DebugSource → Nat
  | .Api => 0x8246
  | .WindowSystem => 0x8247
  | .ShaderCompiler => 0x8248
  | .ThirdParty => 0x8249
  | .Application => 0x824a
  | .Other => 0x824b
  | .Unknown v => v

/-- Whether a `DebugSource` value is one of the named variants. -/
def DebugSource.isNamed : DebugSource → Bool
  | .Unknown _ => false
  | _ => true

/-- The integer codes of the named `DebugSource` variants. -/
def DebugSource.namedCodes : List Nat :=
  [0x8246, 0x8247, 0x8248, 0x8249, 0x824a, 0x824b]

/-- Model of `gl::DebugType` as generated by `define_enum` in `macros.rs`. -/
inductive DebugType where
  | Error
  | DeprecatedBehavior
  | UndefinedBehavior
  | Portability
  | Performance
  | Marker
  | PushGroup
  | PopGroup
  | Other
  | Unknown (v : Nat)
  deriving DecidableEq

/-- Model of `From<u32> for DebugType` generated by `define_enum`. -/
def DebugType.fromCode (v : Nat) : DebugType :=
  if v = 0x824c then .Error
  else if v = 0x824d then .DeprecatedBehavior
  else if v = 0x824e then .UndefinedBehavior
  else if v = 0x824f then .Portability
  else if v = 0x8250 then .Performance
  else if v = 0x8268 then .Marker
  else if v = 0x8269 then .PushGroup
  else if v = 0x826a then .PopGroup
  else if v = 0x8251 then .Other
  else .Unknown v

/-- Model of `From<DebugType> for u32` generated by `define_enum`. -/
def DebugType.toCode : DebugType → Nat
  | .Error => 0x824c
  | .DeprecatedBehavior => 0x824d
  | .UndefinedBehavior => 0x824e
  | .Portability => 0x824f
  | .Performance => 0x8250
  | .Marker => 0x8268
  | .PushGroup => 0x8269
  | .PopGroup => 0x826a
  | .Other => 0x8251
  | .Unknown v => v

/-- Whether a `DebugType` value is one of the named variants. -/
def DebugType.isNamed : DebugType → Bool
  | .Unknown _ => false
  | _ => true

/-- The integer codes of the named `DebugType` variants. -/
def DebugType.namedCodes : List Nat :=
  [0x824c, 0x824d, 0x824e, 0x824f, 0x8250, 0x8268, 0x8269, 0x826a, 0x8251]

/-- Model of `gl::DebugSeverity` as generated by `define_enum` in `macros.rs`. -/
inductive DebugSeverity where
  | High
  | Medium
  | Low
  | Notification
  | Unknown (v : Nat)
  deriving DecidableEq

/-- Model of `From<u32> for DebugSeverity` generated by `define_enum`. -/
def DebugSeverity.fromCode (v : Nat) : DebugSeverity :=
  if v = 0x9146 then .High
  else if v = 0x9147 then .Medium
  else if v = 0x9148 then .Low
  else if v = 0x826b then .Notification
  else .Unknown v

/-- Model of `From<DebugSeverity> for u32` generated by `define_enum`. -/
def DebugSeverity.toCode : DebugSeverity → Nat
  | .High => 0x9146
  | .Medium => 0x9147
  | .Low => 0x9148
  | .Notification => 0x826b
  | .Unknown v => v

/-- Whether a `DebugSeverity` value is one of the named variants. -/
def DebugSeverity.isNamed : DebugSeverity → Bool
  | .Unknown _ => false
  | _ => true

/-- The integer codes of the named `DebugSeverity` variants. -/
def DebugSeverity.namedCodes : List Nat :=
  [0x9146, 0x9147, 0x9148, 0x826b]

end Hitchcock.Gl

namespace Hitchcock.Glfw

/-- Model of `glfw::Error`: `Ffi` for foreign-call failure, `InvalidCString` carrying
the `NulError` position. -/
inductive Error where
  | ffi
  | invalidCString (pos : Nat)
  deriving DecidableEq

/-- Model of `glfw::ErrorCode` with its handwritten `From<i32>` mapping. -/
inductive ErrorCode where
  | NoError
  | NotInitialized
  | NoCurrentContext
  | InvalidEnum
  | InvalidValue
  | OutOfMemory
  | ApiUnavailable
  | VersionUnavailable
  | PlatformError
  | FormatUnavailable
  | NoWindowContext
  | CursorUnavailable
  | FeatureUnavailable
  | FeatureUnimplemented
  | PlatformUnavailable
  | Unknown (code : Int)
  deriving DecidableEq

/-- Model of `From<i32> for ErrorCode` in `glfw.rs`. -/
def ErrorCode.fromCode (code : Int) : ErrorCode :=
  if code = 0 then .NoError
  else if code = 0x00010001 then .NotInitialized
  else if code = 0x00010002 then .NoCurrentContext
  else if code = 0x00010003 then .InvalidEnum
  else if code = 0x00010004 then .InvalidValue
  else if code = 0x00010005 then .OutOfMemory
  else if code = 0x00010006 then .ApiUnavailable
  else if code = 0x00010007 then .VersionUnavailable
  else if code = 0x00010008 then .PlatformError
  else if code = 0x00010009 then .FormatUnavailable
  else if code = 0x0001000A then .NoWindowContext
  else if code = 0x0001000B then .CursorUnavailable
  else if code = 0x0001000C then .FeatureUnavailable
  else if code = 0x0001000D then .FeatureUnimplemented
  else if code = 0x0001000E then .PlatformUnavailable
  else .Unknown code

/-- A foreign GLFW call emitted by a wrapper, with its marshalled arguments.
Pointers are modelled as natural numbers with 0 the null pointer. -/
inductive Call where
  | glfwCreateWindow (width height : Int) (title : Bytes) (monitor share : Nat)
  | glfwGetProcAddress (procname : Bytes)
  deriving DecidableEq

/-- Model of `glfw::create_window`, driven by an oracle giving the foreign
`glfwCreateWindow` result (0 models a null window pointer).  Returns the
wrapper's result together with the trace of foreign calls it performed. -/
def create_window (oracle : Int → Int → Bytes → Nat → Nat → Nat)
    (width height : Int) (title : Bytes) (monitor share : Option Nat) :
    Except Error Nat × List Call :=
  match cstringNew title with
  | .error p => (.error (.invalidCString p), [])
  | .ok t =>
    let m := monitor.getD 0
    let s := share.getD 0
    let window := oracle width height t m s
    if window = 0 then (.error .ffi, [.glfwCreateWindow width height t m s])
    else (.ok window, [.glfwCreateWindow width height t m s])

/-- Model of `glfw::get_proc_address`, driven by an oracle giving the foreign
`glfwGetProcAddress` result (0 models a null address). -/
def get_proc_address (oracle : Bytes → Nat) (procname : Bytes) :
    Except Error Nat × List Call :=
  match cstringNew procname with
  | .error p => (.error (.invalidCString p), [])
  | .ok name =>
    let addr := oracle name
    if addr = 0 then (.error .ffi, [.glfwGetProcAddress name])
    else (.ok addr, [.glfwGetProcAddress name])

/-- The call-in address handed to `glfwSetErrorCallback`: either the fixed
`error_callback` trampoline or the null pointer. -/
inductive CallinAddr where
  | trampoline
  | null
  deriving DecidableEq

/-- Model of `glfw::set_error_callback`: overwrites the `ERROR_CALLBACK` slot (whose
previous contents `slot` are discarded by the assignment) with the new
callback (identified by a numeric id) and passes either the trampoline
address or null to the foreign call.  Returns the new slot contents and the
address passed to `glfwSetErrorCallback`. -/
def set_error_callback (_slot callback : Option Nat) : Option Nat × CallinAddr :=
  (callback, if callback.isSome then .trampoline else .null)

/-- The `error_callback` trampoline in `glfw.rs`: requires the registered
callback (panics when the slot is unset), validates the description as UTF-8
(panics when malformed) and dispatches once with the decoded arguments. -/
def error_callback (slot : Option Nat) (error_code : Int) (description : Bytes) :
    CallinResult (Nat × ErrorCode × Bytes) :=
  match slot with
  | none => .panics "GLFW error callback is not set"
  | some cb =>
    let bytes := cstrFromPtr description
    if utf8Valid bytes then .dispatched (cb, ErrorCode.fromCode error_code, bytes)
    else .panics "GLFW error description is not a valid UTF-8 string"

end Hitchcock.Glfw

namespace Hitchcock.Gl

/-- Model of `gl::Error`: non-active uniform (carrying the queried name) or invalid C
string (carrying the `NulError` position). -/
inductive Error where
  | nonActiveUniform (name : Bytes)
  | invalidCString (pos : Nat)
  deriving DecidableEq

/-- Model of `gl::UniformLocation`, wrapping a `GLint`. -/
structure UniformLocation where
  loc : Int
  deriving DecidableEq

/-- Result of one call to a `glfn`-wrapped entry point: either the
`.expect` on the proc-address lookup panics, or the call returns the resolved
address together with the new cache contents and the number of foreign symbol
lookups this call performed. -/
inductive GlfnStep where
  | panics (msg : String)
  | ret (addr : Nat) (cache : Option Nat) (lookups : Nat)
  deriving DecidableEq

/-- One call through the `glfn` macro's `OnceLock::get_or_init` body:
a populated cache is reused with no lookup; an empty cache triggers exactly
one `glfw::get_proc_address` lookup (`resolve`, with `none` modelling a
null/failed resolution), whose failure panics via `.expect`. -/
def glfn_call (resolve : Option Nat) (cache : Option Nat) : GlfnStep :=
  match cache with
  | some addr => .ret addr (some addr) 0
  | none =>
    match resolve with
    | none => .panics "failed to get OpenGL proc address"
    | some addr => .ret addr (some addr) 1

/-- Runs `n` successive calls to the same `glfn`-wrapped entry point starting
from the given cache state; returns the final cache and the total number of
foreign symbol lookups, or `none` when some call panicked. -/
def glfn_run (resolve : Option Nat) (cache : Option Nat) : Nat → Option (Option Nat × Nat)
  | 0 => some (cache, 0)
  | n + 1 =>
    match glfn_call resolve cache with
    | .panics _ => none
    | .ret _ cache₁ k =>
      match glfn_run resolve cache₁ n with
      | none => none
      | some (cacheF, total) => some (cacheF, k + total)

/-- A foreign GL call emitted by a wrapper, with its marshalled arguments. -/
inductive Call where
  | glGetUniformLocation (program : Nat) (name : Bytes)
  | glShaderSource (shader : Nat) (count : Nat) (strings : List Bytes) (lengths : List Int)
  | glBufferData (target : Nat) (size : Nat) (dataPtr : Nat) (usage : Nat)
  | glGenBuffers (n : Nat)
  | glGenTextures (n : Nat)
  | glGenVertexArrays (n : Nat)
  | glDebugMessageCallback (callbackPtr : Nat) (userParam : Nat)
  deriving DecidableEq

/-- Model of `gl::get_uniform_location`, driven by an oracle giving the foreign
`glGetUniformLocation` answer.  `-1` is the not-found sentinel. -/
def get_uniform_location (oracle : Nat → Bytes → Int) (program : Nat) (name : Bytes) :
    Except Error UniformLocation × List Call :=
  match cstringNew name with
  | .error p => (.error (.invalidCString p), [])
  | .ok cname =>
    let loc := oracle program cname
    if loc = -1 then (.error (.nonActiveUniform name), [.glGetUniformLocation program cname])
    else (.ok ⟨loc⟩, [.glGetUniformLocation program cname])

/-- The `collect::<Result<Vec<CString>>>` step of `gl::shader_source`:
converts each source in order, short-circuiting on the first interior NUL. -/
def collectCStrings : List Bytes → Except Nat (List Bytes)
  | [] => .ok []
  | s :: rest =>
    match cstringNew s with
    | .error p => .error p
    | .ok c =>
      match collectCStrings rest with
      | .error p => .error p
      | .ok cs => .ok (c :: cs)

/-- Model of `gl::shader_source`: converts every source to a C string (short-circuiting
on the first interior NUL, as `collect::<Result<_>>` does) and passes the
string and length arrays to `glShaderSource`. -/
def shader_source (shader : Nat) (sources : List Bytes) :
    Except Error Unit × List Call :=
  let count := sources.length
  match collectCStrings sources with
  | .error p => (.error (.invalidCString p), [])
  | .ok csources =>
    (.ok (), [.glShaderSource shader count csources
      (sources.map (fun s => wrapI32 (Int.ofNat s.length)))])

/-- A Rust slice: its data pointer and its elements. -/
structure Slice (α : Type) where
  ptr : Nat
  elems : List α

/-- Model of `std::mem::size_of_val` on a slice whose element type has size
`sizeOfT`: the slice's total size in bytes. -/
def sizeOfVal {α : Type} (sizeOfT : Nat) (data : Slice α) : Nat :=
  data.elems.length * sizeOfT

/-- Model of `gl::buffer_data`: forwards the slice's byte size (`size_of_val`) and
data pointer to `glBufferData`, performing no copy; the trace is the single
emitted foreign call. -/
def buffer_data {α : Type} (sizeOfT : Nat) (target : Nat) (data : Slice α) (usage : Nat) :
    List Call :=
  [.glBufferData target (sizeOfVal sizeOfT data) data.ptr usage]

/-- The foreign `glGenBuffers`-style write: stores value `w i` into slot `i`
of the caller-provided output array, for every slot of the array. -/
def foreignGenWrite (w : Nat → Nat) (out : List Nat) : List Nat :=
  (List.range out.length).map w

/-- Model of `gl::gen_buffers`: allocates `n` zero handles and lets the foreign
library overwrite each slot. -/
def gen_buffers (w : Nat → Nat) (n : Nat) : List Nat × List Call :=
  let buffers := List.replicate n 0
  (foreignGenWrite w buffers, [.glGenBuffers n])

/-- Model of `gl::gen_textures`: allocates `n` zero handles and lets the foreign
library overwrite each slot. -/
def gen_textures (w : Nat → Nat) (n : Nat) : List Nat × List Call :=
  let textures := List.replicate n 0
  (foreignGenWrite w textures, [.glGenTextures n])

/-- Model of `gl::gen_vertex_arrays`: allocates `n` zero handles and lets the foreign
library overwrite each slot. -/
def gen_vertex_arrays (w : Nat → Nat) (n : Nat) : List Nat × List Call :=
  let arrays := List.replicate n 0
  (foreignGenWrite w arrays, [.glGenVertexArrays n])

/-- The `debug_callback` trampoline in `gl.rs`: requires the registered
callback (panics when the `DEBUG_CALLBACK` slot is unset), decodes the three
integer codes through the `define_enum` mappings, validates the message as
UTF-8 (panics when malformed) and dispatches once with the decoded
arguments.  The `length` argument is ignored, as in the source. -/
def debug_callback (slot : Option Nat) (source typ : Nat) (id : Nat) (severity : Nat)
    (_length : Int) (message : Bytes) :
    CallinResult (Nat × DebugSource × DebugType × Nat × DebugSeverity × Bytes) :=
  match slot with
  | none => .panics "GL error callback is not set"
  | some cb =>
    let bytes := cstrFromPtr message
    if utf8Valid bytes then
      .dispatched (cb, DebugSource.fromCode source, DebugType.fromCode typ, id,
        DebugSeverity.fromCode severity, bytes)
    else .panics "GL error message is not a valid UTF-8 string"

end Hitchcock.Gl

namespace Hitchcock.Stb

/-- Model of `stb_image::Error`. -/
inductive Error where
  | load
  | invalidUtf8
  | invalidCString (pos : Nat)
  deriving DecidableEq

/-- What a successful foreign decode reports: the three `c_int` out-params
and the decoded pixel memory (byte value at each offset). -/
structure Decode where
  width : Int
  height : Int
  channels : Int
  mem : Nat → Nat

/-- A foreign stb_image call emitted by a wrapper. -/
inductive StbCall where
  | stbiLoad (filename : Bytes)
  | stbiLoadFromMemory (buffer : Bytes) (len : Int)
  | stbiImageFree
  deriving DecidableEq

/-- Model of `stb_image::Image`. -/
structure Image where
  pixels : List Nat
  width : Nat
  height : Nat
  channels : Nat
  deriving DecidableEq

/-- Model of `Image::pixels`. -/
def Image.pixelsOf (img : Image) : List Nat := img.pixels

/-- Builds the returned `Image` from a successful decode: the pixel buffer is
a copy of `(width * height * channels) as usize` bytes of decoder memory
(the `c_int` product performed in `i32` arithmetic), and the three metadata
fields are the `as usize` casts of the reported `c_int` values. -/
def imageOfDecode (d : Decode) : Image :=
  let len := usizeOfI32 (wrapI32 (d.width * d.height * d.channels))
  { pixels := (List.range len).map d.mem
    width := usizeOfI32 d.width
    height := usizeOfI32 d.height
    channels := usizeOfI32 d.channels }

/-- Model of `stb_image::Image::load`: requires the path to be valid UTF-8
(`Error::InvalidUtf8` otherwise), converts it to a C string
(`Error::InvalidCString` on interior NUL), then calls `stbi_load` through
the oracle (`none` models a null return, yielding `Error::Load`); on success
the pixels are copied out and the foreign buffer freed. -/
def Image.load (oracle : Bytes → Option Decode) (filename : Bytes) :
    Except Error Image × List StbCall :=
  if utf8Valid filename then
    match cstringNew filename with
    | .error p => (.error (.invalidCString p), [])
    | .ok cname =>
      match oracle cname with
      | none => (.error .load, [.stbiLoad cname])
      | some d => (.ok (imageOfDecode d), [.stbiLoad cname, .stbiImageFree])
  else (.error .invalidUtf8, [])

/-- Model of `stb_image::Image::load_from_memory`: calls `stbi_load_from_memory`
through the oracle with the buffer and its length cast to `c_int`; `none`
models a null return, yielding `Error::Load`. -/
def Image.load_from_memory (oracle : Bytes → Option Decode) (buffer : Bytes) :
    Except Error Image × List StbCall :=
  let len := wrapI32 (Int.ofNat buffer.length)
  match oracle buffer with
  | none => (.error .load, [.stbiLoadFromMemory buffer len])
  | some d => (.ok (imageOfDecode d), [.stbiLoadFromMemory buffer len, .stbiImageFree])

end Hitchcock.Stb

namespace Hitchcock.Imgui

/-- Model of `imgui::Error`. -/
inductive Error where
  | implGlfwInitForOpenGL
  | implOpenGL3Init
  | invalidCString (pos : Nat)
  deriving DecidableEq

/-- A foreign Dear ImGui call emitted by a wrapper. -/
inductive Call where
  | igText (s : Bytes)
  | igCheckbox (label : Bytes) (checked : Bool)
  | igBegin (name : Bytes) (hasOpen : Bool) (openIn : Bool) (flags : Int)
  deriving DecidableEq

/-- Model of `imgui::text`: converts the text to a C string and passes it to
`igText`. -/
def text (s : Bytes) : Except Error Unit × List Call :=
  match cstringNew s with
  | .error p => (.error (.invalidCString p), [])
  | .ok c => (.ok (), [.igText c])

/-- Model of `imgui::checkbox`, driven by an oracle giving the widget's
(new checked state, changed) answer. -/
def checkbox (oracle : Bytes → Bool → Bool × Bool) (label : Bytes) (checked : Bool) :
    Except Error (Bool × Bool) × List Call :=
  match cstringNew label with
  | .error p => (.error (.invalidCString p), [])
  | .ok clabel =>
    let r := oracle clabel checked
    (.ok r, [.igCheckbox clabel checked])

/-- Model of `imgui::begin`, driven by an oracle giving the widget's
(new open state, unfolded) answer. -/
def begin (oracle : Bytes → Bool → Bool × Bool) (name : Bytes) (openIn : Option Bool)
    (flags : Option Int) : Except Error (Option Bool × Bool) × List Call :=
  match cstringNew name with
  | .error p => (.error (.invalidCString p), [])
  | .ok cname =>
    let fl := flags.getD 0
    match openIn with
    | some o =>
      let r := oracle cname o
      (.ok (some r.1, r.2), [.igBegin cname true o fl])
    | none =>
      let r := oracle cname false
      (.ok (none, r.2), [.igBegin cname false false fl])

end Hitchcock.Imgui

namespace Hitchcock.Glfw

/-- Modelled from the spec: `glfw::set_framebuffer_size_callback` and its
trampoline are called from `main.rs` but absent from the library sources;
per the spec the per-window resize callbacks live in a process-wide mapping
keyed by window handle, and registering stores the optional callback under
the registering window's handle. -/
def set_framebuffer_size_callback (registry : Nat → Option (Option Nat))
    (window : Nat) (callback : Option Nat) : Nat → Option (Option Nat) :=
  fun w => if w = window then some callback else registry w

/-- Modelled from the spec: the framebuffer-size trampoline looks up the
invoking window's handle in the per-window registry, requires an entry to
exist (fatal if the window is unknown) and an active callback (fatal if
unset), then dispatches once to the user function with the window and the
new dimensions. -/
def framebuffer_size_callback (registry : Nat → Option (Option Nat))
    (window : Nat) (width height : Int) :
    CallinResult (Nat × Nat × Int × Int) :=
  match registry window with
  | none => .panics "framebuffer size callback is not set for unknown window"
  | some none => .panics "framebuffer size callback is not set"
  | some (some cb) => .dispatched (cb, window, width, height)

end Hitchcock.Glfw

namespace Hitchcock

/-- C1: for each `define_enum`-generated enum (`gl::DebugSource`,
`gl::DebugType`, `gl::DebugSeverity`), converting a named variant to its code
and back yields the variant; and every `u32` code outside the named table
maps to `Unknown` carrying exactly that code, which converts back to the same
code. -/
theorem c1_enum_roundtrip :
    (∀ v : Gl.DebugSource, v.isNamed = true → Gl.DebugSource.fromCode v.toCode = v)
    ∧ (∀ v : Gl.DebugType, v.isNamed = true → Gl.DebugType.fromCode v.toCode = v)
    ∧ (∀ v : Gl.DebugSeverity, v.isNamed = true → Gl.DebugSeverity.fromCode v.toCode = v)
    ∧ (∀ c : Nat, c < 2 ^ 32 → c ∉ Gl.DebugSource.namedCodes →
        Gl.DebugSource.fromCode c = .Unknown c ∧ (Gl.DebugSource.fromCode c).toCode = c)
    ∧ (∀ c : Nat, c < 2 ^ 32 → c ∉ Gl.DebugType.namedCodes →
        Gl.DebugType.fromCode c = .Unknown c ∧ (Gl.DebugType.fromCode c).toCode = c)
    ∧ (∀ c : Nat, c < 2 ^ 32 → c ∉ Gl.DebugSeverity.namedCodes →
        Gl.DebugSeverity.fromCode c = .Unknown c ∧ (Gl.DebugSeverity.fromCode c).toCode = c) := by
  refine ⟨?_, ?_, ?_, ?_, ?_, ?_⟩
  · intro v h
    cases v
    case Unknown w => simp [Gl.DebugSource.isNamed] at h
    all_goals decide
  · intro v h
    cases v
    case Unknown w => simp [Gl.DebugType.isNamed] at h
    all_goals decide
  · intro v h
    cases v
    case Unknown w => simp [Gl.DebugSeverity.isNamed] at h
    all_goals decide
  · intro c _ hmem
    simp [Gl.DebugSource.namedCodes] at hmem
    refine ⟨?_, ?_⟩ <;>
      simp [Gl.DebugSource.fromCode, Gl.DebugSource.toCode, hmem]
  · intro c _ hmem
    simp [Gl.DebugType.namedCodes] at hmem
    refine ⟨?_, ?_⟩ <;>
      simp [Gl.DebugType.fromCode, Gl.DebugType.toCode, hmem]
  · intro c _ hmem
    simp [Gl.DebugSeverity.namedCodes] at hmem
    refine ⟨?_, ?_⟩ <;>
      simp [Gl.DebugSeverity.fromCode, Gl.DebugSeverity.toCode, hmem]

/-- Witness for C1 at concrete inputs: the named variant `Api` round-trips,
and the unlisted code `7` maps to `Unknown 7` and back to `7`. -/
theorem c1_enum_roundtrip_witness :
    Gl.DebugSource.fromCode (Gl.DebugSource.toCode .Api) = .Api
    ∧ Gl.DebugType.fromCode 7 = .Unknown 7 := by
  refine ⟨c1_enum_roundtrip.1 .Api rfl, ?_⟩
  exact (c1_enum_roundtrip.2.2.2.2.1 7 (by norm_num) (by decide)).1

/-- C3: the GLFW error trampoline and the GL debug trampoline panic when
their registry slot is unset; with a registered callback they decode the raw
integer codes through the enum mappings, validate the C-string payload as
UTF-8 (panicking on malformed text) and dispatch exactly once with the
decoded arguments. -/
theorem c3_trampoline_dispatch :
    (∀ code buf, Glfw.error_callback none code buf
       = .panics "GLFW error callback is not set")
    ∧ (∀ cb code buf, utf8Valid (cstrFromPtr buf) = true →
        Glfw.error_callback (some cb) code buf
          = .dispatched (cb, Glfw.ErrorCode.fromCode code, cstrFromPtr buf))
    ∧ (∀ cb code buf, utf8Valid (cstrFromPtr buf) = false →
        Glfw.error_callback (some cb) code buf
          = .panics "GLFW error description is not a valid UTF-8 string")
    ∧ (∀ src typ id sev len buf, Gl.debug_callback none src typ id sev len buf
        = .panics "GL error callback is not set")
    ∧ (∀ cb src typ id sev len buf, utf8Valid (cstrFromPtr buf) = true →
        Gl.debug_callback (some cb) src typ id sev len buf
          = .dispatched (cb, Gl.DebugSource.fromCode src, Gl.DebugType.fromCode typ, id,
              Gl.DebugSeverity.fromCode sev, cstrFromPtr buf))
    ∧ (∀ cb src typ id sev len buf, utf8Valid (cstrFromPtr buf) = false →
        Gl.debug_callback (some cb) src typ id sev len buf
          = .panics "GL error message is not a valid UTF-8 string") := by
  refine ⟨fun code buf => rfl, ?_, ?_, fun src typ id sev len buf => rfl, ?_, ?_⟩
  · intro cb code buf h
    simp [Glfw.error_callback, h]
  · intro cb code buf h
    simp [Glfw.error_callback, h]
  · intro cb src typ id sev len buf h
    simp [Gl.debug_callback, h]
  · intro cb src typ id sev len buf h
    simp [Gl.debug_callback, h]

/-- Witness for C3 at concrete inputs: with callback id 1 registered, error
code 0 and the NUL-terminated payload `"H"` dispatch once with the decoded
arguments; with malformed payload `0xFF` the GL trampoline panics. -/
theorem c3_trampoline_dispatch_witness :
    Glfw.error_callback (some 1) 0 [72, 0] = .dispatched (1, .NoError, [72])
    ∧ Gl.debug_callback (some 1) 0x8246 0x824c 5 0x9146 1 [0xFF, 0]
        = .panics "GL error message is not a valid UTF-8 string" :=
  ⟨c3_trampoline_dispatch.2.1 1 0 [72, 0] (by decide),
   c3_trampoline_dispatch.2.2.2.2.2 1 0x8246 0x824c 5 0x9146 1 [0xFF, 0] (by decide)⟩

/-- C4: `glfw::set_error_callback(None)` leaves the registry slot unset and
passes the null call-in address to the foreign call, regardless of the
previous slot contents (so clearing an already-clear slot is idempotent),
and after registering `Some f` a subsequent `None` leaves a slot that no
longer holds `f`. -/
theorem c4_clear_idempotent :
    (∀ slot, Glfw.set_error_callback slot none = (none, .null))
    ∧ (∀ slot f,
        (Glfw.set_error_callback (Glfw.set_error_callback slot (some f)).1 none).1 = none)
    ∧ (∀ slot f,
        (Glfw.set_error_callback (Glfw.set_error_callback slot (some f)).1 none).1 ≠ some f) :=
  ⟨fun _ => rfl, fun _ _ => rfl, fun _ _ h => Option.noConfusion h⟩

/-- Witness for C4 at concrete inputs: clearing an unset slot leaves it
unset with the null call-in address, and registering callback 3 then
clearing leaves a slot that does not hold 3. -/
theorem c4_clear_idempotent_witness :
    Glfw.set_error_callback none none = (none, .null)
    ∧ (Glfw.set_error_callback (Glfw.set_error_callback none (some 3)).1 none).1 ≠ some 3 :=
  ⟨c4_clear_idempotent.1 none, c4_clear_idempotent.2.2 none 3⟩

/-- C5: a `glfn`-wrapped entry point performs at most one foreign symbol
lookup across any sequence of calls (later calls reuse the cached pointer
with zero lookups), and a null first resolution panics instead of being
retried. -/
theorem c5_resolve_once :
    (∀ (resolve : Option Nat) (n : Nat) (cacheF : Option Nat) (total : Nat),
        Gl.glfn_run resolve none n = some (cacheF, total) → total ≤ 1)
    ∧ (∀ (resolve : Option Nat) (a : Nat),
        Gl.glfn_call resolve (some a) = .ret a (some a) 0)
    ∧ Gl.glfn_call none none = .panics "failed to get OpenGL proc address" := by
  have hcached : ∀ (resolve : Option Nat) (a : Nat) (n : Nat),
      Gl.glfn_run resolve (some a) n = some (some a, 0) := by
    intro resolve a n
    induction n with
    | zero => rfl
    | succ m ih => simp [Gl.glfn_run, Gl.glfn_call, ih]
  refine ⟨?_, fun resolve a => rfl, rfl⟩
  intro resolve n cacheF total h
  match n with
  | 0 =>
    simp [Gl.glfn_run] at h
    omega
  | m + 1 =>
    match resolve with
    | none => simp [Gl.glfn_run, Gl.glfn_call] at h
    | some a =>
      rw [show Gl.glfn_run (some a) none (m + 1)
          = match Gl.glfn_run (some a) (some a) m with
            | none => none
            | some (cacheF, total) => some (cacheF, 1 + total) from rfl] at h
      rw [hcached (some a) a m] at h
      simp at h
      omega

/-- Witness for C5 at concrete inputs: two successive calls with a resolver
answering address 7 perform exactly one lookup in total, which is at most
one. -/
theorem c5_resolve_once_witness :
    Gl.glfn_run (some 7) none 2 = some (some 7, 1) ∧ (1 : Nat) ≤ 1 :=
  ⟨rfl, c5_resolve_once.1 (some 7) 2 (some 7) 1 rfl⟩

/-- Helper: when some source string contains a NUL byte, the short-circuiting
C-string conversion of `gl::shader_source` fails with some `NulError`. -/
theorem collectCStrings_error (sources : List Bytes)
    (h : sources.any (·.contains 0) = true) :
    ∃ p, Gl.collectCStrings sources = .error p := by
  induction sources with
  | nil => simp at h
  | cons s rest ih =>
    simp only [List.any_cons, Bool.or_eq_true] at h
    by_cases hs : (0 : Nat) ∈ s
    · refine ⟨s.findIdx (· == 0), ?_⟩
      simp [Gl.collectCStrings, cstringNew, hs]
    · have hr : rest.any (·.contains 0) = true := by
        rcases h with h | h
        · exact absurd (by simpa using h) hs
        · exact h
      obtain ⟨p, hp⟩ := ih hr
      refine ⟨p, ?_⟩
      simp [Gl.collectCStrings, cstringNew, hs, hp]

/-- Counterexample to C2 as stated: the path `[0xFF, 0x00]` supplied to
`stb_image::Image::load` contains an embedded NUL byte, yet the wrapper
returns the invalid-UTF-8 error (the UTF-8 check precedes the C-string
conversion), not the invalid-C-string error. -/
theorem c2_counterexample :
    ([0xFF, 0] : Bytes).contains 0 = true
    ∧ (Stb.Image.load (fun _ => none) [0xFF, 0]).1 = .error .invalidUtf8
    ∧ ¬ ∃ p, (Stb.Image.load (fun _ => none) [0xFF, 0]).1
        = .error (.invalidCString p) := by
  refine ⟨by decide, rfl, ?_⟩
  rintro ⟨p, hp⟩
  rw [show (Stb.Image.load (fun _ => none) [0xFF, 0]).1
      = .error .invalidUtf8 from rfl] at hp
  injection hp with h
  exact Stb.Error.noConfusion h

/-- C2 (amended): every wrapper taking a text argument returns the
invalid-C-string error and performs no foreign call when the text contains an
embedded NUL byte — for `Image::load`, provided the path is valid UTF-8 text
(a non-UTF-8 path is rejected with the invalid-UTF-8 error first, also with
no foreign call). -/
theorem c2_nul_rejected :
    (∀ o w h title m s, title.contains (0 : Nat) = true →
        Glfw.create_window o w h title m s
          = (.error (.invalidCString (title.findIdx (· == 0))), []))
    ∧ (∀ o name, name.contains (0 : Nat) = true →
        Glfw.get_proc_address o name
          = (.error (.invalidCString (name.findIdx (· == 0))), []))
    ∧ (∀ o prog name, name.contains (0 : Nat) = true →
        Gl.get_uniform_location o prog name
          = (.error (.invalidCString (name.findIdx (· == 0))), []))
    ∧ (∀ shader sources, sources.any (·.contains 0) = true →
        ∃ p, Gl.shader_source shader sources = (.error (.invalidCString p), []))
    ∧ (∀ o filename, utf8Valid filename = true → filename.contains (0 : Nat) = true →
        Stb.Image.load o filename
          = (.error (.invalidCString (filename.findIdx (· == 0))), []))
    ∧ (∀ filename, filename.contains (0 : Nat) = true →
        (Stb.Image.load (fun _ => none) filename).2 = [])
    ∧ (∀ s, s.contains (0 : Nat) = true →
        Imgui.text s = (.error (.invalidCString (s.findIdx (· == 0))), []))
    ∧ (∀ o label ch, label.contains (0 : Nat) = true →
        Imgui.checkbox o label ch
          = (.error (.invalidCString (label.findIdx (· == 0))), []))
    ∧ (∀ o name op fl, name.contains (0 : Nat) = true →
        Imgui.begin o name op fl
          = (.error (.invalidCString (name.findIdx (· == 0))), [])) := by
  refine ⟨?_, ?_, ?_, ?_, ?_, ?_, ?_, ?_, ?_⟩
  · intro o w h title m s ht
    have ht₁ : (0 : Nat) ∈ title := by simpa using ht
    simp [Glfw.create_window, cstringNew, ht₁]
  · intro o name hn
    have hn₁ : (0 : Nat) ∈ name := by simpa using hn
    simp [Glfw.get_proc_address, cstringNew, hn₁]
  · intro o prog name hn
    have hn₁ : (0 : Nat) ∈ name := by simpa using hn
    simp [Gl.get_uniform_location, cstringNew, hn₁]
  · intro shader sources hs
    obtain ⟨p, hp⟩ := collectCStrings_error sources hs
    exact ⟨p, by simp [Gl.shader_source, hp]⟩
  · intro o filename hu hn
    have hn₁ : (0 : Nat) ∈ filename := by simpa using hn
    simp [Stb.Image.load, cstringNew, hu, hn₁]
  · intro filename hn
    have hn₁ : (0 : Nat) ∈ filename := by simpa using hn
    by_cases hu : utf8Valid filename
    · simp [Stb.Image.load, cstringNew, hu, hn₁]
    · simp [Stb.Image.load, hu]
  · intro s hs
    have hs₁ : (0 : Nat) ∈ s := by simpa using hs
    simp [Imgui.text, cstringNew, hs₁]
  · intro o label ch hl
    have hl₁ : (0 : Nat) ∈ label := by simpa using hl
    simp [Imgui.checkbox, cstringNew, hl₁]
  · intro o name op fl hn
    have hn₁ : (0 : Nat) ∈ name := by simpa using hn
    simp [Imgui.begin, cstringNew, hn₁]

/-- Witness for the amended C2 at concrete inputs: the title `"H\x00"`
makes `create_window` fail with the invalid-C-string error at position 1
with an empty foreign-call trace, and likewise for a uniform name. -/
theorem c2_nul_rejected_witness :
    Glfw.create_window (fun _ _ _ _ _ => 1) 800 600 [72, 0] none none
      = (.error (.invalidCString 1), [])
    ∧ Gl.get_uniform_location (fun _ _ => 3) 4 [72, 0]
      = (.error (.invalidCString 1), []) :=
  ⟨c2_nul_rejected.1 (fun _ _ _ _ _ => 1) 800 600 [72, 0] none none rfl,
   c2_nul_rejected.2.2.1 (fun _ _ => 3) 4 [72, 0] rfl⟩

/-- C6: a successful `Image::load` or `Image::load_from_memory` whose decode
reports dimensions `W`, `H` and channel count `C` (as in-range `c_int`
values) yields an `Image` with `width() = W`, `height() = H`,
`channels() = C` and a pixel buffer of exactly `W * H * C` bytes, which
equals `width() * height() * channels()`. -/
theorem c6_image_byte_count :
    ∀ (o : Bytes → Option Stb.Decode) (input : Bytes) (d : Stb.Decode),
      o input = some d →
      0 ≤ d.width → 0 ≤ d.height → 0 ≤ d.channels →
      d.width * d.height * d.channels < 2 ^ 31 →
      d.width < 2 ^ 31 → d.height < 2 ^ 31 → d.channels < 2 ^ 31 →
      ((utf8Valid input = true → input.contains (0 : Nat) = false →
          (Stb.Image.load o input).1 = .ok (Stb.imageOfDecode d))
       ∧ (Stb.Image.load_from_memory o input).1 = .ok (Stb.imageOfDecode d)
       ∧ (Stb.imageOfDecode d).width = d.width.toNat
       ∧ (Stb.imageOfDecode d).height = d.height.toNat
       ∧ (Stb.imageOfDecode d).channels = d.channels.toNat
       ∧ (Stb.imageOfDecode d).pixels.length
           = (Stb.imageOfDecode d).width * (Stb.imageOfDecode d).height
               * (Stb.imageOfDecode d).channels) := by
  intro o input d ho hw hh hc hprod hw31 hh31 hc31
  have h0 : (0 : Int) ≤ d.width * d.height * d.channels :=
    mul_nonneg (mul_nonneg hw hh) hc
  have hwrap : wrapI32 (d.width * d.height * d.channels)
      = d.width * d.height * d.channels := by
    unfold wrapI32
    omega
  have husize : ∀ x : Int, 0 ≤ x → x < 2 ^ 31 → usizeOfI32 x = x.toNat := by
    intro x h1 h2
    unfold usizeOfI32
    omega
  have hW := husize d.width hw hw31
  have hH := husize d.height hh hh31
  have hC := husize d.channels hc hc31
  have hP := husize _ h0 hprod
  obtain ⟨W, hWe⟩ := Int.eq_ofNat_of_zero_le hw
  obtain ⟨H, hHe⟩ := Int.eq_ofNat_of_zero_le hh
  obtain ⟨C, hCe⟩ := Int.eq_ofNat_of_zero_le hc
  have hsplit : (d.width * d.height * d.channels).toNat
      = d.width.toNat * d.height.toNat * d.channels.toNat := by
    rw [hWe, hHe, hCe]
    simp only [← Int.natCast_mul, Int.toNat_natCast]
  refine ⟨?_, ?_, ?_, ?_, ?_, ?_⟩
  · intro hu hn
    have hn₁ : (0 : Nat) ∉ input := by simpa using hn
    simp [Stb.Image.load, cstringNew, hu, hn₁, ho]
  · simp [Stb.Image.load_from_memory, ho]
  · simp [Stb.imageOfDecode, hW]
  · simp [Stb.imageOfDecode, hH]
  · simp [Stb.imageOfDecode, hC]
  · simp [Stb.imageOfDecode, hwrap, hP, hW, hH, hC, hsplit]

/-- Witness for C6 at concrete inputs: a decode reporting 2x3 with 4
channels from the one-byte path `"a"` loads successfully and its pixel
buffer length equals the product of the accessor values. -/
theorem c6_image_byte_count_witness :
    (Stb.Image.load (fun _ => some ⟨2, 3, 4, fun i => i⟩) [97]).1
      = .ok (Stb.imageOfDecode ⟨2, 3, 4, fun i => i⟩)
    ∧ (Stb.imageOfDecode ⟨2, 3, 4, fun i => i⟩).pixels.length
      = (Stb.imageOfDecode ⟨2, 3, 4, fun i => i⟩).width
          * (Stb.imageOfDecode ⟨2, 3, 4, fun i => i⟩).height
          * (Stb.imageOfDecode ⟨2, 3, 4, fun i => i⟩).channels := by
  have h := c6_image_byte_count (fun _ => some ⟨2, 3, 4, fun i => i⟩) [97]
    ⟨2, 3, 4, fun i => i⟩ rfl (by norm_num) (by norm_num) (by norm_num)
    (by norm_num) (by norm_num) (by norm_num) (by norm_num)
  exact ⟨h.1 (by decide) (by decide), h.2.2.2.2.2⟩

/-- C7: with a NUL-free name, `gl::get_uniform_location` returns the
non-active-uniform error carrying the queried name exactly when the foreign
lookup returns the `-1` sentinel, and otherwise returns `Ok` wrapping the
integer the foreign lookup returned. -/
theorem c7_uniform_location :
    ∀ (o : Nat → Bytes → Int) (program : Nat) (name : Bytes),
      name.contains (0 : Nat) = false →
      (((Gl.get_uniform_location o program name).1
          = .error (.nonActiveUniform name) ↔ o program name = -1)
       ∧ (o program name ≠ -1 →
          (Gl.get_uniform_location o program name).1 = .ok ⟨o program name⟩)) := by
  intro o program name hn
  have hn₁ : (0 : Nat) ∉ name := by simpa using hn
  by_cases hloc : o program name = -1 <;>
    simp [Gl.get_uniform_location, cstringNew, hn₁, hloc]

/-- Witness for C7 at concrete inputs: a foreign lookup that always answers
`-1` makes the wrapper return the non-active-uniform error for the name
`"u"`. -/
theorem c7_uniform_location_witness :
    ((Gl.get_uniform_location (fun _ _ => -1) 3 [117]).1
       = .error (.nonActiveUniform [117]) ↔ (-1 : Int) = -1) :=
  (c7_uniform_location (fun _ _ => -1) 3 [117] rfl).1

/-- C8: `gl::gen_buffers`, `gl::gen_textures` and `gl::gen_vertex_arrays`
each return exactly `n` handles, where handle `i` holds the value the
foreign library wrote into output slot `i`. -/
theorem c8_gen_order :
    ∀ (w : Nat → Nat) (n : Nat),
      ((Gl.gen_buffers w n).1.length = n
        ∧ ∀ i, i < n → (Gl.gen_buffers w n).1[i]? = some (w i))
      ∧ ((Gl.gen_textures w n).1.length = n
        ∧ ∀ i, i < n → (Gl.gen_textures w n).1[i]? = some (w i))
      ∧ ((Gl.gen_vertex_arrays w n).1.length = n
        ∧ ∀ i, i < n → (Gl.gen_vertex_arrays w n).1[i]? = some (w i)) := by
  intro w n
  have hlen : (Gl.foreignGenWrite w (List.replicate n 0)).length = n := by
    simp [Gl.foreignGenWrite]
  have hget : ∀ i, i < n → (Gl.foreignGenWrite w (List.replicate n 0))[i]? = some (w i) := by
    intro i hi
    simp [Gl.foreignGenWrite, List.getElem?_range, hi]
  exact ⟨⟨hlen, hget⟩, ⟨hlen, hget⟩, ⟨hlen, hget⟩⟩

/-- Witness for C8 at concrete inputs: generating two buffers with the
foreign library writing `slot + 10` puts 10 in slot 0. -/
theorem c8_gen_order_witness :
    (Gl.gen_buffers (fun i => i + 10) 2).1[0]? = some 10 :=
  (c8_gen_order (fun i => i + 10) 2).1.2 0 (by decide)

/-- C9: per-window resize callbacks live in a process-wide mapping keyed by
window handle; the trampoline panics when the invoking window has no
registry entry or when the entry holds no active callback, and otherwise
dispatches to the registered user function (in particular after a
registration for that window). -/
theorem c9_framebuffer_trampoline :
    ∀ (registry : Nat → Option (Option Nat)) (window : Nat) (width height : Int),
      (registry window = none →
        Glfw.framebuffer_size_callback registry window width height
          = .panics "framebuffer size callback is not set for unknown window")
      ∧ (registry window = some none →
        Glfw.framebuffer_size_callback registry window width height
          = .panics "framebuffer size callback is not set")
      ∧ (∀ cb, registry window = some (some cb) →
        Glfw.framebuffer_size_callback registry window width height
          = .dispatched (cb, window, width, height))
      ∧ (∀ cb, Glfw.framebuffer_size_callback
          (Glfw.set_framebuffer_size_callback registry window (some cb))
          window width height = .dispatched (cb, window, width, height)) := by
  intro registry window width height
  refine ⟨?_, ?_, ?_, ?_⟩
  · intro h
    simp [Glfw.framebuffer_size_callback, h]
  · intro h
    simp [Glfw.framebuffer_size_callback, h]
  · intro cb h
    simp [Glfw.framebuffer_size_callback, h]
  · intro cb
    simp [Glfw.framebuffer_size_callback, Glfw.set_framebuffer_size_callback]

/-- Witness for C9 at concrete inputs: an empty registry makes the
trampoline panic for window 1, and after registering callback 5 for window 1
the trampoline dispatches to it. -/
theorem c9_framebuffer_trampoline_witness :
    Glfw.framebuffer_size_callback (fun _ => none) 1 800 600
      = .panics "framebuffer size callback is not set for unknown window"
    ∧ Glfw.framebuffer_size_callback
        (Glfw.set_framebuffer_size_callback (fun _ => none) 1 (some 5)) 1 800 600
      = .dispatched (5, 1, 800, 600) :=
  ⟨(c9_framebuffer_trampoline (fun _ => none) 1 800 600).1 rfl,
   (c9_framebuffer_trampoline (fun _ => none) 1 800 600).2.2.2 5⟩

/-- C10: `gl::buffer_data` emits exactly one `glBufferData` call whose size
argument is the slice's byte size (`len * size_of::<T>()`, via
`mem::size_of_val`) and whose data argument is the slice's own pointer,
copying nothing. -/
theorem c10_buffer_data_bytes :
    ∀ (α : Type) (sizeOfT target usage : Nat) (data : Gl.Slice α),
      Gl.buffer_data sizeOfT target data usage
        = [.glBufferData target (data.elems.length * sizeOfT) data.ptr usage] :=
  fun _ _ _ _ _ => rfl

/-- Witness for C10 at a concrete slice: three 4-byte elements at pointer
100 upload exactly 12 bytes from that pointer. -/
theorem c10_buffer_data_bytes_witness :
    Gl.buffer_data 4 1 (⟨100, [5, 6, 7]⟩ : Gl.Slice Nat) 2
      = [.glBufferData 1 12 100 2] :=
  c10_buffer_data_bytes Nat 4 1 2 ⟨100, [5, 6, 7]⟩

end Hitchcock
